import Mathlib

/-!
Verification development for `child_weight.cpp` (INSP-RH child body-composition
model). The C++ class `Child` is shallowly embedded: the member variables of
the object become the fields of a structure, `getParameters` becomes a
function filling the sex-derived fields, and each method becomes a function on
that structure. `NumericVector`s of length `nind` are embedded as functions
`Fin (n + 1) → ℝ` (the code indexes entry 0 unconditionally in `Intake`, so a
run always has at least one individual). Double arithmetic is embedded as
real arithmetic; `exp` is `Real.exp` and `pow` with a real exponent is
`Real.rpow`. `pow(x, 2)` with the integer literal 2 is embedded as `x ^ 2`.
-/

noncomputable section

/-- A cohort-wide vector: one real per individual. -/
abbrev Vec (n : ℕ) := Fin (n + 1) → ℝ

/-- Member state of the C++ `Child` object (inputs plus the constants that
`getParameters` derives from `sex`).  Field names follow the source. -/
structure Child (n : ℕ) where
  age : Vec n
  sex : Vec n
  bmiCat : Vec n
  FFM : Vec n
  FM : Vec n
  dt : ℝ
  EIntake : ℤ → Vec n
  check : Bool
  referenceValues : ℝ
  generalized_logistic : Bool
  K_logistic : ℝ
  A_logistic : ℝ
  Q_logistic : ℝ
  B_logistic : ℝ
  nu_logistic : ℝ
  C_logistic : ℝ
  rhoFM : ℝ
  deltamin : ℝ
  P : ℝ
  h : ℝ
  ffm_beta0 : Vec n
  ffm_beta1 : Vec n
  fm_beta0 : Vec n
  fm_beta1 : Vec n
  K : Vec n
  deltamax : Vec n
  A : Vec n
  B : Vec n
  D : Vec n
  tA : Vec n
  tB : Vec n
  tD : Vec n
  tauA : Vec n
  tauB : Vec n
  tauD : Vec n
  A_EB : Vec n
  B_EB : Vec n
  D_EB : Vec n
  tA_EB : Vec n
  tB_EB : Vec n
  tD_EB : Vec n
  tauA_EB : Vec n
  tauB_EB : Vec n
  tauD_EB : Vec n
  A1 : Vec n
  B1 : Vec n
  D1 : Vec n
  tA1 : Vec n
  tB1 : Vec n
  tD1 : Vec n
  tauA1 : Vec n
  tauB1 : Vec n
  tauD1 : Vec n

namespace Child

variable {n : ℕ}

/-- `Child::getParameters`: fills the general constants and the sex-specific
constants from the `sex` member, leaving every other member unchanged. -/
def getParameters (c : Child n) : Child n :=
  { c with
    rhoFM    := 9.4 * 1000.0
    deltamin := 10.0
    P        := 12.0
    h        := 10.0
    ffm_beta0 := fun i => 2.9 * (1 - c.sex i) + 3.8 * c.sex i
    ffm_beta1 := fun i => 2.9 * (1 - c.sex i) + 2.3 * c.sex i
    fm_beta0  := fun i => 1.2 * (1 - c.sex i) + 0.56 * c.sex i
    fm_beta1  := fun i => 0.41 * (1 - c.sex i) + 0.74 * c.sex i
    K         := fun i => 800 * (1 - c.sex i) + 700 * c.sex i
    deltamax  := fun i => 19 * (1 - c.sex i) + 17 * c.sex i
    A         := fun i => 3.2 * (1 - c.sex i) + 2.3 * c.sex i
    B         := fun i => 9.6 * (1 - c.sex i) + 8.4 * c.sex i
    D         := fun i => 10.1 * (1 - c.sex i) + 1.1 * c.sex i
    tA        := fun i => 4.7 * (1 - c.sex i) + 4.5 * c.sex i
    tB        := fun i => 12.5 * (1 - c.sex i) + 11.7 * c.sex i
    tD        := fun i => 15.0 * (1 - c.sex i) + 16.2 * c.sex i
    tauA      := fun i => 2.5 * (1 - c.sex i) + 1.0 * c.sex i
    tauB      := fun i => 1.0 * (1 - c.sex i) + 0.9 * c.sex i
    tauD      := fun i => 1.5 * (1 - c.sex i) + 0.7 * c.sex i
    A_EB      := fun i => 7.2 * (1 - c.sex i) + 16.5 * c.sex i
    B_EB      := fun i => 30 * (1 - c.sex i) + 47.0 * c.sex i
    D_EB      := fun i => 21 * (1 - c.sex i) + 41.0 * c.sex i
    tA_EB     := fun i => 5.6 * (1 - c.sex i) + 4.8 * c.sex i
    tB_EB     := fun i => 9.8 * (1 - c.sex i) + 9.1 * c.sex i
    tD_EB     := fun i => 15.0 * (1 - c.sex i) + 13.5 * c.sex i
    tauA_EB   := fun i => 15 * (1 - c.sex i) + 7.0 * c.sex i
    tauB_EB   := fun i => 1.5 * (1 - c.sex i) + 1.0 * c.sex i
    tauD_EB   := fun i => 2.0 * (1 - c.sex i) + 1.5 * c.sex i
    A1        := fun i => 3.2 * (1 - c.sex i) + 2.3 * c.sex i
    B1        := fun i => 9.6 * (1 - c.sex i) + 8.4 * c.sex i
    D1        := fun i => 10.0 * (1 - c.sex i) + 1.1 * c.sex i
    tA1       := fun i => 4.7 * (1 - c.sex i) + 4.5 * c.sex i
    tB1       := fun i => 12.5 * (1 - c.sex i) + 11.7 * c.sex i
    tD1       := fun i => 15.0 * (1 - c.sex i) + 16.0 * c.sex i
    tauA1     := fun i => 1.0 * (1 - c.sex i) + 1.0 * c.sex i
    tauB1     := fun i => 0.94 * (1 - c.sex i) + 0.94 * c.sex i
    tauD1     := fun i => 0.69 * (1 - c.sex i) + 0.69 * c.sex i }

/-- The classic (tabulated energy-intake matrix) constructor: stores the
inputs, sets `generalized_logistic = false` and runs `build`
(= `getParameters`).  Members the constructor does not mention are
value-initialized to zero here; all of them are overwritten by
`getParameters` or never read in that mode. -/
def classic (age sex bmiCat FFM FM : Vec n) (EIntake : ℤ → Vec n)
    (dt : ℝ) (checkValues : Bool) (referenceValues : ℝ) : Child n :=
  getParameters
    { age := age, sex := sex, bmiCat := bmiCat, FFM := FFM, FM := FM
      dt := dt, EIntake := EIntake, check := checkValues
      referenceValues := referenceValues
      generalized_logistic := false
      K_logistic := 0, A_logistic := 0, Q_logistic := 0, B_logistic := 0
      nu_logistic := 0, C_logistic := 0
      rhoFM := 0, deltamin := 0, P := 0, h := 0
      ffm_beta0 := fun _ => 0, ffm_beta1 := fun _ => 0
      fm_beta0 := fun _ => 0, fm_beta1 := fun _ => 0
      K := fun _ => 0, deltamax := fun _ => 0
      A := fun _ => 0, B := fun _ => 0, D := fun _ => 0
      tA := fun _ => 0, tB := fun _ => 0, tD := fun _ => 0
      tauA := fun _ => 0, tauB := fun _ => 0, tauD := fun _ => 0
      A_EB := fun _ => 0, B_EB := fun _ => 0, D_EB := fun _ => 0
      tA_EB := fun _ => 0, tB_EB := fun _ => 0, tD_EB := fun _ => 0
      tauA_EB := fun _ => 0, tauB_EB := fun _ => 0, tauD_EB := fun _ => 0
      A1 := fun _ => 0, B1 := fun _ => 0, D1 := fun _ => 0
      tA1 := fun _ => 0, tB1 := fun _ => 0, tD1 := fun _ => 0
      tauA1 := fun _ => 0, tauB1 := fun _ => 0, tauD1 := fun _ => 0 }

/-- The Richards-curve constructor: stores the six logistic parameters, sets
`generalized_logistic = true` and runs `build` (= `getParameters`).  There is
no intake matrix in this mode; the `EIntake` member is never read. -/
def logistic (age sex bmiCat FFM FM : Vec n)
    (K Q A B nu C : ℝ) (dt : ℝ) (checkValues : Bool)
    (referenceValues : ℝ) : Child n :=
  getParameters
    { age := age, sex := sex, bmiCat := bmiCat, FFM := FFM, FM := FM
      dt := dt, EIntake := fun _ _ => 0, check := checkValues
      referenceValues := referenceValues
      generalized_logistic := true
      K_logistic := K, A_logistic := A, Q_logistic := Q, B_logistic := B
      nu_logistic := nu, C_logistic := C
      rhoFM := 0, deltamin := 0, P := 0, h := 0
      ffm_beta0 := fun _ => 0, ffm_beta1 := fun _ => 0
      fm_beta0 := fun _ => 0, fm_beta1 := fun _ => 0
      K := fun _ => 0, deltamax := fun _ => 0
      A := fun _ => 0, B := fun _ => 0, D := fun _ => 0
      tA := fun _ => 0, tB := fun _ => 0, tD := fun _ => 0
      tauA := fun _ => 0, tauB := fun _ => 0, tauD := fun _ => 0
      A_EB := fun _ => 0, B_EB := fun _ => 0, D_EB := fun _ => 0
      tA_EB := fun _ => 0, tB_EB := fun _ => 0, tD_EB := fun _ => 0
      tauA_EB := fun _ => 0, tauB_EB := fun _ => 0, tauD_EB := fun _ => 0
      A1 := fun _ => 0, B1 := fun _ => 0, D1 := fun _ => 0
      tA1 := fun _ => 0, tB1 := fun _ => 0, tD1 := fun _ => 0
      tauA1 := fun _ => 0, tauB1 := fun _ => 0, tauD1 := fun _ => 0 }

/-- `Child::general_ode`: the shared exponential-plus-two-Gaussians curve
family, applied componentwise to cohort vectors. -/
def general_ode (t iA iB iD itA itB itD itauA itauB itauD : Vec n) : Vec n :=
  fun i =>
    iA i * Real.exp (-(t i - itA i) / itauA i) +
      iB i * Real.exp (-0.5 * ((t i - itB i) / itauB i) ^ 2) +
      iD i * Real.exp (-0.5 * ((t i - itD i) / itauD i) ^ 2)

/-- `Child::Growth_dynamic`: the curve family at the growth-dynamic
coefficient set `A, B, D, tA, tB, tD, tauA, tauB, tauD`. -/
def Growth_dynamic (c : Child n) (t : Vec n) : Vec n :=
  general_ode t c.A c.B c.D c.tA c.tB c.tD c.tauA c.tauB c.tauD

/-- `Child::Growth_impact`: the curve family at the growth-impact coefficient
set `A1, B1, D1, tA1, tB1, tD1, tauA1, tauB1, tauD1`. -/
def Growth_impact (c : Child n) (t : Vec n) : Vec n :=
  general_ode t c.A1 c.B1 c.D1 c.tA1 c.tB1 c.tD1 c.tauA1 c.tauB1 c.tauD1

/-- `Child::EB_impact`: the curve family at the energy-balance-impact
coefficient set `A_EB, ..., tauD_EB`. -/
def EB_impact (c : Child n) (t : Vec n) : Vec n :=
  general_ode t c.A_EB c.B_EB c.D_EB c.tA_EB c.tB_EB c.tD_EB
    c.tauA_EB c.tauB_EB c.tauD_EB

/-- `Child::cRhoFFM`: energy density of fat-free tissue. -/
def cRhoFFM (input_FFM : Vec n) : Vec n :=
  fun i => 4.3 * input_FFM i + 837.0

/-- `Child::cP`: the energy-partition fraction
`C / (C + FM)` with `C = 10.4 * cRhoFFM(FFM) / rhoFM`. -/
def cP (c : Child n) (FFM FM : Vec n) : Vec n :=
  fun i =>
    10.4 * cRhoFFM FFM i / c.rhoFM / (10.4 * cRhoFFM FFM i / c.rhoFM + FM i)

/-- `Child::Delta`: the age-decaying adaptive-thermogenesis term
`deltamin + (deltamax - deltamin) * (1 / (1 + (t/P)^h))`.  The exponent `h`
is a real member, so `pow` is embedded as `Real.rpow`. -/
def Delta (c : Child n) (t : Vec n) : Vec n :=
  fun i =>
    c.deltamin + (c.deltamax i - c.deltamin) * (1.0 / (1.0 + (t i / c.P) ^ c.h))

end Child

/-- Sex blend `m*(1-sex) + f*sex` used by every table row of the source. -/
def bl (s m f : ℝ) : ℝ := m * (1 - s) + f * s

/-- Rows of the mean fat-free-mass reference table (`ffm_ref`,
`referenceValues == 0`), as a function of the sex value and the four
BMI-category indicators; rows beyond 16 do not exist in the source matrix. -/
def ffmRefMean (s u no ov ob : ℝ) : ℕ → ℝ
  | 0 => bl s 10.134 9.477
  | 1 => bl s 12.099 11.494
  | 2 => bl s 14.0 13.2
  | 3 => bl s 15.72 14.86
  | 4 => u * bl s 12.7942 13.7957 + no * bl s 17.0238 15.2337 +
      ov * bl s 19.3070 17.7866 + ob * bl s 22.2248 21.2170
  | 5 => u * bl s 17.8106 18.4835 + no * bl s 19.0775 17.5198 +
      ov * bl s 20.3344 18.9406 + ob * bl s 23.1765 22.2733
  | 6 => u * bl s 20.3597 18.5363 + no * bl s 20.4774 19.6317 +
      ov * bl s 22.1128 21.6080 + ob * bl s 25.8151 25.1641
  | 7 => u * bl s 19.3668 17.0314 + no * bl s 22.3768 21.3680 +
      ov * bl s 26.7714 26.1791 + ob * bl s 31.3143 30.1484
  | 8 => u * bl s 23.9096 19.1085 + no * bl s 24.8998 24.0922 +
      ov * bl s 30.4866 30.3541 + ob * bl s 34.1717 35.2838
  | 9 => u * bl s 23.5033 23.3318 + no * bl s 27.5943 28.2737 +
      ov * bl s 32.6556 34.1915 + ob * bl s 38.2638 37.0428
  | 10 => u * bl s 24.7662 25.9357 + no * bl s 31.5163 31.9490 +
      ov * bl s 37.5262 37.0654 + ob * bl s 42.3513 42.5446
  | 11 => u * bl s 28.9497 30.2351 + no * bl s 36.3432 34.3348 +
      ov * bl s 41.6549 39.1559 + ob * bl s 48.1398 44.0205
  | 12 => u * bl s 33.9297 33.6380 + no * bl s 40.9730 36.1797 +
      ov * bl s 48.0671 40.9960 + ob * bl s 50.1084 46.0726
  | 13 => u * bl s 35.2601 33.0539 + no * bl s 43.7795 38.1065 +
      ov * bl s 49.3493 42.8965 + ob * bl s 55.6289 48.6841
  | 14 => u * bl s 40.5041 32.9676 + no * bl s 46.9540 40.1114 +
      ov * bl s 52.9435 45.6216 + ob * bl s 58.9917 49.7917
  | 15 => u * bl s 42.0445 32.3827 + no * bl s 47.8972 39.6064 +
      ov * bl s 55.8888 46.1784 + ob * bl s 58.7117 51.0534
  | 16 => u * bl s 44.0779 35.5248 + no * bl s 49.6930 41.2798 +
      ov * bl s 56.5725 45.9979 + ob * bl s 61.7620 49.8746
  | _ => 0

/-- Rows of the median fat-free-mass reference table (`ffm_ref`,
`referenceValues == 1`). -/
def ffmRefMedian (s u no ov ob : ℝ) : ℕ → ℝ
  | 0 => bl s 10.134 9.477
  | 1 => bl s 12.099 11.494
  | 2 => bl s 14.0 13.2
  | 3 => bl s 15.72 14.86
  | 4 => u * bl s 14.4641 13.8627 + no * bl s 17.1430 15.1282 +
      ov * bl s 19.2280 17.6859 + ob * bl s 21.9501 20.4992
  | 5 => u * bl s 16.3729 16.6347 + no * bl s 18.2285 17.2507 +
      ov * bl s 21.7099 20.0341 + ob * bl s 24.9713 23.4162
  | 6 => u * bl s 18.0019 17.2583 + no * bl s 19.9148 19.4286 +
      ov * bl s 24.6404 22.1758 + ob * bl s 27.4774 26.8346
  | 7 => u * bl s 19.2548 17.5150 + no * bl s 21.9058 21.2721 +
      ov * bl s 26.5243 25.6952 + ob * bl s 30.8636 29.2900
  | 8 => u * bl s 23.9096 20.1493 + no * bl s 24.8603 23.6199 +
      ov * bl s 29.9298 29.5716 + ob * bl s 34.1859 34.1346
  | 9 => u * bl s 23.7557 24.0089 + no * bl s 27.4756 28.2708 +
      ov * bl s 32.4980 32.8672 + ob * bl s 38.1778 37.5833
  | 10 => u * bl s 24.1310 25.5209 + no * bl s 31.2494 32.2679 +
      ov * bl s 37.7967 36.7435 + ob * bl s 42.8213 42.2971
  | 11 => u * bl s 28.2941 32.6849 + no * bl s 36.0685 33.7855 +
      ov * bl s 41.4671 38.6218 + ob * bl s 48.1462 43.5195
  | 12 => u * bl s 33.7396 37.2420 + no * bl s 40.9866 35.9762 +
      ov * bl s 47.9945 40.9744 + ob * bl s 50.9872 45.6421
  | 13 => u * bl s 35.7472 32.2773 + no * bl s 44.0430 38.2639 +
      ov * bl s 49.7454 43.1117 + ob * bl s 54.9071 48.1360
  | 14 => u * bl s 41.8846 33.0258 + no * bl s 46.8444 39.6752 +
      ov * bl s 53.3482 45.7056 + ob * bl s 58.5851 48.9594
  | 15 => u * bl s 42.6661 31.6275 + no * bl s 48.2625 39.5399 +
      ov * bl s 55.9614 47.2530 + ob * bl s 58.4194 50.7464
  | 16 => u * bl s 42.8578 37.5435 + no * bl s 49.4174 41.5349 +
      ov * bl s 56.7387 45.9623 + ob * bl s 63.6968 50.0229
  | _ => 0

/-- Rows of the mean fat-mass reference table (`fm_ref`,
`referenceValues == 0`). -/
def fmRefMean (s u no ov ob : ℝ) : ℕ → ℝ
  | 0 => bl s 2.456 2.433
  | 1 => bl s 2.576 2.606
  | 2 => bl s 2.7 2.8
  | 3 => bl s 3.66 4.47
  | 4 => u * bl s 1.7764 2.5951 + no * bl s 3.4540 3.8303 +
      ov * bl s 4.8055 5.7014 + ob * bl s 7.9672 9.3883
  | 5 => u * bl s 2.3398 2.8164 + no * bl s 3.5859 4.2782 +
      ov * bl s 5.4625 6.5960 + ob * bl s 8.4350 10.4148
  | 6 => u * bl s 3.2767 3.0828 + no * bl s 4.1138 5.2226 +
      ov * bl s 5.5455 7.3667 + ob * bl s 9.3266 12.0550
  | 7 => u * bl s 2.3902 2.6538 + no * bl s 4.1705 5.0218 +
      ov * bl s 6.6958 8.6945 + ob * bl s 11.5896 14.1436
  | 8 => u * bl s 2.9954 3.1389 + no * bl s 4.5465 5.7742 +
      ov * bl s 8.1191 10.6667 + ob * bl s 13.4114 17.3329
  | 9 => u * bl s 2.6803 3.8049 + no * bl s 5.0225 6.9162 +
      ov * bl s 8.7335 12.3291 + ob * bl s 15.2821 19.0058
  | 10 => u * bl s 2.8835 4.2002 + no * bl s 5.9324 8.2706 +
      ov * bl s 10.5608 14.4379 + ob * bl s 18.3024 24.9390
  | 11 => u * bl s 3.1579 4.7942 + no * bl s 7.0763 9.1606 +
      ov * bl s 12.3945 15.0401 + ob * bl s 21.7342 28.2547
  | 12 => u * bl s 3.6857 5.3309 + no * bl s 8.3966 10.0249 +
      ov * bl s 15.0498 17.1050 + ob * bl s 24.2628 29.7700
  | 13 => u * bl s 3.9803 5.2442 + no * bl s 9.0181 10.5653 +
      ov * bl s 15.5611 17.5730 + ob * bl s 27.0142 29.9077
  | 14 => u * bl s 4.6019 4.8228 + no * bl s 10.0921 11.4444 +
      ov * bl s 18.1619 19.9088 + ob * bl s 30.8170 31.2351
  | 15 => u * bl s 4.8405 4.8583 + no * bl s 10.0547 10.6654 +
      ov * bl s 19.2423 19.4731 + ob * bl s 30.7942 31.1807
  | 16 => u * bl s 4.6858 5.3332 + no * bl s 10.7726 11.3437 +
      ov * bl s 19.1356 19.0598 + ob * bl s 35.6945 30.3288
  | _ => 0

/-- Rows of the median fat-mass reference table (`fm_ref`,
`referenceValues == 1`). -/
def fmRefMedian (s u no ov ob : ℝ) : ℕ → ℝ
  | 0 => bl s 2.456 2.433
  | 1 => bl s 2.576 2.606
  | 2 => bl s 2.7 2.8
  | 3 => bl s 3.66 4.47
  | 4 => u * bl s 2.0359 2.5660 + no * bl s 3.4642 3.7042 +
      ov * bl s 4.6220 5.6735 + ob * bl s 7.1058 8.7339
  | 5 => u * bl s 2.3771 2.9560 + no * bl s 3.6030 4.1865 +
      ov * bl s 5.5651 6.4374 + ob * bl s 8.0501 9.3100
  | 6 => u * bl s 2.1231 3.0917 + no * bl s 3.6729 4.8531 +
      ov * bl s 5.8971 7.0172 + ob * bl s 8.9372 11.5469
  | 7 => u * bl s 2.4068 2.9027 + no * bl s 4.0597 4.8707 +
      ov * bl s 6.5720 8.7112 + ob * bl s 10.8084 12.7559
  | 8 => u * bl s 2.9954 3.1757 + no * bl s 4.5932 5.4455 +
      ov * bl s 8.0701 10.6143 + ob * bl s 12.3133 15.7121
  | 9 => u * bl s 2.7443 3.8911 + no * bl s 4.7619 6.9604 +
      ov * bl s 8.6445 11.7518 + ob * bl s 14.4743 17.4123
  | 10 => u * bl s 2.8190 4.1099 + no * bl s 5.5671 8.3722 +
      ov * bl s 10.2431 14.7437 + ob * bl s 17.3155 22.9359
  | 11 => u * bl s 3.0059 5.3651 + no * bl s 6.7689 9.2549 +
      ov * bl s 12.0232 14.6163 + ob * bl s 21.0382 26.6716
  | 12 => u * bl s 3.7104 5.8580 + no * bl s 8.4317 9.8827 +
      ov * bl s 15.2507 16.2256 + ob * bl s 22.9540 27.6643
  | 13 => u * bl s 4.4546 5.2493 + no * bl s 8.7820 10.3785 +
      ov * bl s 15.6754 17.3977 + ob * bl s 25.5113 28.0559
  | 14 => u * bl s 4.6585 4.8742 + no * bl s 9.5728 11.4776 +
      ov * bl s 18.3549 19.7533 + ob * bl s 29.9916 30.6943
  | 15 => u * bl s 4.8189 4.7975 + no * bl s 10.3426 10.3454 +
      ov * bl s 18.9543 19.3869 + ob * bl s 27.2116 29.9799
  | 16 => u * bl s 4.5259 5.7815 + no * bl s 10.7497 10.9042 +
      ov * bl s 18.9053 19.1592 + ob * bl s 31.9253 28.3702
  | _ => 0

namespace Child

variable {n : ℕ}

/-- Entry `(row, i)` of the `ffm_ref` matrix built inside
`Child::FFMReference`: the one-hot BMI-category indicators are
`ifelse(bmiCat == k, 1.0, 0.0)`, and the matrix is filled only when
`referenceValues` is 0 or 1 (an Rcpp `NumericMatrix` is zero-initialized
otherwise). -/
def ffm_ref (c : Child n) (row : ℕ) (i : Fin (n + 1)) : ℝ :=
  let s := c.sex i
  let u : ℝ := if c.bmiCat i = 1 then 1.0 else 0.0
  let no : ℝ := if c.bmiCat i = 2 then 1.0 else 0.0
  let ov : ℝ := if c.bmiCat i = 3 then 1.0 else 0.0
  let ob : ℝ := if c.bmiCat i = 4 then 1.0 else 0.0
  if c.referenceValues = 0 then ffmRefMean s u no ov ob row
  else if c.referenceValues = 1 then ffmRefMedian s u no ov ob row
  else 0

/-- Entry `(row, i)` of the `fm_ref` matrix built inside
`Child::FMReference`. -/
def fm_ref (c : Child n) (row : ℕ) (i : Fin (n + 1)) : ℝ :=
  let s := c.sex i
  let u : ℝ := if c.bmiCat i = 1 then 1.0 else 0.0
  let no : ℝ := if c.bmiCat i = 2 then 1.0 else 0.0
  let ov : ℝ := if c.bmiCat i = 3 then 1.0 else 0.0
  let ob : ℝ := if c.bmiCat i = 4 then 1.0 else 0.0
  if c.referenceValues = 0 then fmRefMean s u no ov ob row
  else if c.referenceValues = 1 then fmRefMedian s u no ov ob row
  else 0

/-- `Child::FFMReference`: for `t(i) >= 18` the age-18 row (index 16);
otherwise linear interpolation between rows
`jmin = max(floor t, 2) - 2` and `jmax = min(jmin+1, 17)` with weight
`t - floor t`.  `floor` of a `double` assigned to `int` is exact, so the
row indices are integers; they are never negative, so `Int.toNat` is
faithful. -/
def FFMReference (c : Child n) (t : Vec n) : Vec n :=
  fun i =>
    if 18.0 ≤ t i then c.ffm_ref 16 i
    else
      c.ffm_ref (max ⌊t i⌋ 2 - 2).toNat i +
        (t i - (⌊t i⌋ : ℝ)) *
          (c.ffm_ref (min (max ⌊t i⌋ 2 - 2 + 1) 17).toNat i -
            c.ffm_ref (max ⌊t i⌋ 2 - 2).toNat i)

/-- `Child::FMReference`: same lookup over the fat-mass tables. -/
def FMReference (c : Child n) (t : Vec n) : Vec n :=
  fun i =>
    if 18.0 ≤ t i then c.fm_ref 16 i
    else
      c.fm_ref (max ⌊t i⌋ 2 - 2).toNat i +
        (t i - (⌊t i⌋ : ℝ)) *
          (c.fm_ref (min (max ⌊t i⌋ 2 - 2 + 1) 17).toNat i -
            c.fm_ref (max ⌊t i⌋ 2 - 2).toNat i)

/-- `Child::Intake`: generalized-logistic closed form when
`generalized_logistic` is set, otherwise the row of the tabulated intake
matrix at day offset `floor(365*(t(0) - age(0))/dt)` — computed once from
individual 0's entries and used for every column. -/
def Intake (c : Child n) (t : Vec n) : Vec n :=
  if c.generalized_logistic then
    fun i =>
      c.A_logistic + (c.K_logistic - c.A_logistic) /
        (c.C_logistic + c.Q_logistic * Real.exp (-(c.B_logistic * t i))) ^
          (1 / c.nu_logistic)
  else
    fun i => c.EIntake ⌊365.0 * (t 0 - c.age 0) / c.dt⌋ i

/-- `Child::IntakeReference`, with the local vectors `EB`, `FFMref`,
`FMref`, `delta`, `growth`, `p`, `rhoFFM` of the source inlined. -/
def IntakeReference (c : Child n) (t : Vec n) : Vec n :=
  fun i =>
    EB_impact c t i + c.K i + (22.4 + Delta c t i) * FFMReference c t i +
      (4.5 + Delta c t i) * FMReference c t i +
      230.0 / cRhoFFM (FFMReference c t) i *
        (cP c (FFMReference c t) (FMReference c t) i * EB_impact c t i +
          Growth_dynamic c t i) +
      180.0 / c.rhoFM *
        ((1 - cP c (FFMReference c t) (FMReference c t) i) * EB_impact c t i -
          Growth_dynamic c t i)

/-- `Child::Expenditure`: the raw balance divided by
`1 + 230/rhoFFM*p + 180/rhoFM*(1-p)`. -/
def Expenditure (c : Child n) (t FFM FM : Vec n) : Vec n :=
  fun i =>
    (c.K i + (22.4 + Delta c t i) * FFM i + (4.5 + Delta c t i) * FM i +
      0.24 * (Intake c t i - IntakeReference c t i) +
      (230.0 / cRhoFFM FFM i * cP c FFM FM i +
        180.0 / c.rhoFM * (1.0 - cP c FFM FM i)) * Intake c t i +
      Growth_dynamic c t i * (230.0 / cRhoFFM FFM i - 180.0 / c.rhoFM)) /
    (1.0 + 230.0 / cRhoFFM FFM i * cP c FFM FM i +
      180.0 / c.rhoFM * (1.0 - cP c FFM FM i))

/-- `Child::dMass`: the derivative matrix as the pair (row 0, row 1) =
(`dFFM`, `dFM`). -/
def dMass (c : Child n) (t FFM FM : Vec n) : Vec n × Vec n :=
  (fun i =>
      (1.0 * cP c FFM FM i * (Intake c t i - Expenditure c t FFM FM i) +
        Growth_dynamic c t i) / cRhoFFM FFM i,
   fun i =>
      ((1.0 - cP c FFM FM i) * (Intake c t i - Expenditure c t FFM FM i) -
        Growth_dynamic c t i) / c.rhoFM)

/-- One iteration of the loop body of `Child::rk4`: the four stages and the
state update, exactly as written in the source (the stage mass arguments are
offset by `0.5 * k` and `k`, the stage time arguments by `0.5*dt/365` and
`dt/365`, and the final update is `state + dt*(k1 + 2*k2 + 2*k3 + k4)/6`). -/
def rk4Step (c : Child n) (t ffm fm : Vec n) : Vec n × Vec n :=
  let k1 := c.dMass t ffm fm
  let k2 := c.dMass (fun i => t i + 0.5 * c.dt / 365.0)
    (fun i => ffm i + 0.5 * k1.1 i) (fun i => fm i + 0.5 * k1.2 i)
  let k3 := c.dMass (fun i => t i + 0.5 * c.dt / 365.0)
    (fun i => ffm i + 0.5 * k2.1 i) (fun i => fm i + 0.5 * k2.2 i)
  let k4 := c.dMass (fun i => t i + c.dt / 365.0)
    (fun i => ffm i + k3.1 i) (fun i => fm i + k3.2 i)
  (fun i => ffm i + c.dt * (k1.1 i + 2.0 * k2.1 i + 2.0 * k3.1 i + k4.1 i) / 6.0,
   fun i => fm i + c.dt * (k1.2 i + 2.0 * k2.2 i + 2.0 * k3.2 i + k4.2 i) / 6.0)

/-- Column `k` of the `TIME` vector: `TIME(0) = 0`,
`TIME(i) = TIME(i-1) + dt`. -/
def timeState (c : Child n) : ℕ → ℝ
  | 0 => 0.0
  | k + 1 => c.timeState k + c.dt

/-- Column `k` of the `AGE` matrix: `AGE(_,0) = age`,
`AGE(_,i) = AGE(_,i-1) + dt/365`. -/
def ageState (c : Child n) : ℕ → Vec n
  | 0 => c.age
  | k + 1 => fun i => c.ageState k i + c.dt / 365.0

/-- Columns `k` of the `ModelFFM` and `ModelFM` matrices: the initial masses
at column 0, then one `rk4` loop iteration per column. -/
def massState (c : Child n) : ℕ → Vec n × Vec n
  | 0 => (c.FFM, c.FM)
  | k + 1 => c.rk4Step (c.ageState k) (c.massState k).1 (c.massState k).2

end Child

/-- The `List` returned by `Child::rk4`, with its named components. -/
structure Trace (n : ℕ) where
  Time : List ℝ
  Age : List (Vec n)
  Fat_Free_Mass : List (Vec n)
  Fat_Mass : List (Vec n)
  Body_Weight : List (Vec n)
  Correct_Values : Bool
  Model_Type : String

namespace Child

variable {n : ℕ}

/-- `Child::rk4(days)`: `nsims = floor(days/dt)` loop iterations, recorded
columns `0 .. nsims` of the state matrices, `ModelBW(_,k) =
ModelFFM(_,k) + ModelFM(_,k)` at every recorded column, `correctVals`
initialized `true` and never modified. -/
def rk4 (c : Child n) (days : ℝ) : Trace n :=
  let nsims : ℕ := (⌊days / c.dt⌋).toNat
  { Time := List.ofFn fun k : Fin (nsims + 1) => c.timeState k
    Age := List.ofFn fun k : Fin (nsims + 1) => c.ageState k
    Fat_Free_Mass := List.ofFn fun k : Fin (nsims + 1) => (c.massState k).1
    Fat_Mass := List.ofFn fun k : Fin (nsims + 1) => (c.massState k).2
    Body_Weight := List.ofFn fun k : Fin (nsims + 1) =>
      fun i => (c.massState k).1 i + (c.massState k).2 i
    Correct_Values := true
    Model_Type := "Children" }

end Child

/-! ## Spec-side definitions

Definitions in this section transcribe formulas the way the specification
states them (marked `...Spec`); the theorems below compare them with the
embedding of the source. -/

/-- The adaptive-thermogenesis term as the spec writes it:
`deltamin + (deltamax - deltamin) / (1 + (t/P)^h)`. -/
def DeltaSpec (c : Child n) (t : Vec n) : Vec n :=
  fun i => c.deltamin + (c.deltamax i - c.deltamin) / (1 + (t i / c.P) ^ c.h)

/-- `Expend_raw` as the spec states it in §4.6. -/
def ExpendRawSpec (c : Child n) (t FFM FM : Vec n) : Vec n :=
  fun i =>
    c.K i + (22.4 + DeltaSpec c t i) * FFM i + (4.5 + DeltaSpec c t i) * FM i +
      0.24 * (Child.Intake c t i - Child.IntakeReference c t i) +
      (230 / Child.cRhoFFM FFM i * Child.cP c FFM FM i +
        180 / c.rhoFM * (1 - Child.cP c FFM FM i)) * Child.Intake c t i +
      Child.Growth_dynamic c t i * (230 / Child.cRhoFFM FFM i - 180 / c.rhoFM)

/-- `E = Expend_raw / (1 + 230/rhoFFM*p + 180/rhoFM*(1-p))` as the spec
states it. -/
def ExpenditureSpec (c : Child n) (t FFM FM : Vec n) : Vec n :=
  fun i =>
    ExpendRawSpec c t FFM FM i /
      (1 + 230 / Child.cRhoFFM FFM i * Child.cP c FFM FM i +
        180 / c.rhoFM * (1 - Child.cP c FFM FM i))

/-- The partition fraction as the spec states it in §4.4:
`p = C/(C + FM)` with `C = 10.4*(4.3*FFM + 837)/9400`. -/
def pSpec (FFM FM : ℝ) : ℝ :=
  10.4 * (4.3 * FFM + 837) / 9400 / (10.4 * (4.3 * FFM + 837) / 9400 + FM)

/-! ## Helper lemmas -/

/-- Indexing a `List.ofFn` with a default. -/
theorem getD_ofFn {α : Type} {m : ℕ} (f : Fin m → α) (k : ℕ) (d : α) :
    (List.ofFn f).getD k d = if h : k < m then f ⟨k, h⟩ else d := by
  rw [List.getD_eq_getElem?_getD, List.getElem?_ofFn]
  split <;> simp [List.ofFnNthVal, *]

/-- The partition fraction of the source lies strictly between 0 and 1 when
both masses are positive and `rhoFM` is the built value 9400. -/
theorem cP_mem_Ioo (c : Child n) (FFM FM : Vec n) (i : Fin (n + 1))
    (hrho : c.rhoFM = 9400) (hffm : 0 ≤ FFM i) (hfm : 0 < FM i) :
    0 < Child.cP c FFM FM i ∧ Child.cP c FFM FM i < 1 := by
  unfold Child.cP Child.cRhoFFM
  rw [hrho]
  have hC : (0:ℝ) < 10.4 * (4.3 * FFM i + 837.0) / 9400 := by positivity
  constructor
  · exact div_pos hC (by linarith)
  · rw [div_lt_one (by linarith)]
    linarith

/-! ## Claims -/

/-- C10: for every input cohort and every horizon, the `Correct_Values`
field of the trace returned by `rk4` is `true`; the loop never modifies the
flag, so no run can return a false flag. -/
theorem claim_C10_correct_values_always_true (c : Child n) (days : ℝ) :
    (c.rk4 days).Correct_Values = true := rfl

/-- C9: at every recorded column of the returned trace and for every
individual, the recorded body weight equals the recorded fat-free mass plus
the recorded fat mass; the `Body_Weight` column is assigned
`ModelFFM(_,k) + ModelFM(_,k)` and is never integrated separately.  (Out of
trace range, all three `getD` defaults are the zero vector and the identity
is trivial.) -/
theorem claim_C9_body_weight_is_sum (c : Child n) (days : ℝ) (k : ℕ)
    (i : Fin (n + 1)) :
    ((c.rk4 days).Body_Weight.getD k fun _ => 0) i =
      ((c.rk4 days).Fat_Free_Mass.getD k fun _ => 0) i +
        ((c.rk4 days).Fat_Mass.getD k fun _ => 0) i := by
  unfold Child.rk4
  simp only [getD_ofFn]
  split <;> simp

/-- C5: the expenditure returned by `Child::Expenditure` is exactly the
spec's closure `E = Expend_raw / (1 + 230/rhoFFM*p + 180/rhoFM*(1-p))`,
with `Expend_raw` as in §4.6 and `delta(t) = deltamin +
(deltamax-deltamin)/(1+(t/P)^h)`, `p` and `rhoFFM` evaluated at the current
masses. -/
theorem claim_C5_expenditure_closure (c : Child n) (t FFM FM : Vec n) :
    Child.Expenditure c t FFM FM = ExpenditureSpec c t FFM FM := by
  funext i
  unfold Child.Expenditure ExpenditureSpec ExpendRawSpec DeltaSpec Child.Delta
  ring

/-- C6: for a built `Child` (after `getParameters`), `cRhoFFM` is
`4.3*FFM + 837`, `rhoFM` is 9400, `cP` is `C/(C+FM)` with
`C = 10.4*(4.3*FFM+837)/9400`, and for positive masses the partition
fraction is strictly between 0 and 1. -/
theorem claim_C6_energy_partition (c : Child n) (FFM FM : Vec n)
    (i : Fin (n + 1)) :
    Child.cRhoFFM FFM i = 4.3 * FFM i + 837 ∧
      (c.getParameters).rhoFM = 9400 ∧
      Child.cP c.getParameters FFM FM i = pSpec (FFM i) (FM i) ∧
      (0 < FFM i → 0 < FM i →
        0 < Child.cP c.getParameters FFM FM i ∧
          Child.cP c.getParameters FFM FM i < 1) := by
  refine ⟨by norm_num [Child.cRhoFFM], by norm_num [Child.getParameters], ?_,
    fun h1 h2 => ?_⟩
  · unfold Child.cP Child.cRhoFFM pSpec Child.getParameters
    norm_num
  · exact cP_mem_Ioo _ FFM FM i (by norm_num [Child.getParameters]) h1.le h2

/-- Witness for C6 at `FFM = 25`, `FM = 6`: the hypotheses `0 < 25` and
`0 < 6` hold and the partition fraction lies in `(0,1)` there. -/
theorem claim_C6_witness :
    0 < Child.cP (Child.getParameters (Child.classic (n := 0)
        (fun _ => 10) (fun _ => 0) (fun _ => 2) (fun _ => 25) (fun _ => 6)
        (fun _ _ => 0) 1 true 0)) (fun _ => 25) (fun _ => 6) 0 ∧
      Child.cP (Child.getParameters (Child.classic (n := 0)
        (fun _ => 10) (fun _ => 0) (fun _ => 2) (fun _ => 25) (fun _ => 6)
        (fun _ _ => 0) 1 true 0)) (fun _ => 25) (fun _ => 6) 0 < 1 :=
  (claim_C6_energy_partition _ _ _ 0).2.2.2 (by norm_num) (by norm_num)

/-- Closed form of the `TIME` recursion: `TIME(k) = k * dt`. -/
theorem timeState_eq (c : Child n) (k : ℕ) : c.timeState k = (k : ℝ) * c.dt := by
  induction k with
  | zero => norm_num [Child.timeState]
  | succ m ih =>
    rw [Child.timeState, ih]
    push_cast
    ring

/-- Closed form of the `AGE` recursion: `AGE(k,i) = age(i) + k * dt/365`. -/
theorem ageState_eq (c : Child n) (k : ℕ) (i : Fin (n + 1)) :
    c.ageState k i = c.age i + (k : ℝ) * (c.dt / 365) := by
  induction k with
  | zero => simp [Child.ageState]
  | succ m ih =>
    have hstep : c.ageState (m + 1) i = c.ageState m i + c.dt / 365.0 := rfl
    rw [hstep, ih]
    push_cast
    ring

/-- A concrete single-individual cohort used to instantiate theorems with
hypotheses: male, age 10, normal BMI category, FFM 25 kg, FM 6 kg, tabulated
zero intake, `dt = 1`, mean reference tables. -/
def childW : Child 0 :=
  Child.classic (fun _ => 10) (fun _ => 0) (fun _ => 2) (fun _ => 25)
    (fun _ => 6) (fun _ _ => 0) 1 true 0

/-- C7: for `dt > 0` and a non-negative horizon, `rk4(days)` records
`floor(days/dt) + 1` time points (the `Int.toNat` in the embedding is the
mathematical floor under these hypotheses), `TIME` starts at 0 and gains
`dt` per step, and `AGE` gains `dt/365` per step. -/
theorem claim_C7_trace_shape (c : Child n) (days : ℝ)
    (hdt : 0 < c.dt) (hdays : 0 ≤ days) :
    (c.rk4 days).Time.length = (⌊days / c.dt⌋).toNat + 1 ∧
      ((⌊days / c.dt⌋).toNat : ℤ) = ⌊days / c.dt⌋ ∧
      ∀ k : ℕ, k ≤ (⌊days / c.dt⌋).toNat →
        (c.rk4 days).Time.getD k 0 = (k : ℝ) * c.dt ∧
          ∀ i, ((c.rk4 days).Age.getD k fun _ => 0) i =
            c.age i + (k : ℝ) * (c.dt / 365) := by
  refine ⟨by simp [Child.rk4], ?_, fun k hk => ?_⟩
  · exact Int.toNat_of_nonneg (Int.floor_nonneg.mpr (by positivity))
  · have hlt : k < (⌊days / c.dt⌋).toNat + 1 := Nat.lt_succ_of_le hk
    constructor
    · rw [show (c.rk4 days).Time = List.ofFn
          fun j : Fin ((⌊days / c.dt⌋).toNat + 1) => c.timeState j from rfl,
        getD_ofFn, dif_pos hlt]
      exact timeState_eq c k
    · intro i
      rw [show (c.rk4 days).Age = List.ofFn
          fun j : Fin ((⌊days / c.dt⌋).toNat + 1) => c.ageState j from rfl,
        getD_ofFn, dif_pos hlt]
      exact ageState_eq c k i

/-- Witness for C7, matching the claim's instance `dt = 1`, `days = 10`:
the trace has 11 time points and, e.g., `TIME(7) = 7`. -/
theorem claim_C7_witness :
    (childW.rk4 10).Time.length = 11 ∧ (childW.rk4 10).Time.getD 7 0 = 7 := by
  have hdt : childW.dt = 1 := rfl
  have h := claim_C7_trace_shape childW 10 (by rw [hdt]; norm_num) (by norm_num)
  have hfloor : (⌊(10:ℝ) / childW.dt⌋).toNat = 10 := by
    rw [hdt]
    norm_num
    decide
  refine ⟨?_, ?_⟩
  · rw [h.1, hfloor]
  · have := (h.2.2 7 (by rw [hfloor]; norm_num)).1
    rw [hdt] at this
    simpa using this

/-- A two-individual cohort for exercising the tabulated-intake indexing:
both start at age 0, `dt = 1`, and the intake table returns its own row
index, so which row was read is visible in the result. -/
def childC2 : Child 1 :=
  Child.classic (fun _ => 0) (fun _ => 0) (fun _ => 2) (fun _ => 25)
    (fun _ => 6) (fun r _ => (r : ℝ)) 1 true 0

/-- A time vector giving individual 0 the time 0 and individual 1 the
time 1. -/
def tC2 : Vec 1 := fun j => if j = 0 then 0 else 1

/-- C2 (amended): in tabulated mode the day-offset row index is computed
once, from individual 0's current time and starting age, as
`floor(365*(t(0) - age(0))/dt)`, and that row serves every individual; when
every individual has the same elapsed time `t - age0` (as inside the
integrator, where all start at simulated time 0) this coincides with the
per-individual row `floor(365*(t(i) - age(i))/dt)`. -/
theorem claim_C2_tabulated_row_from_individual_zero (c : Child n) (t : Vec n)
    (i : Fin (n + 1)) (hmode : c.generalized_logistic = false) :
    Child.Intake c t i = c.EIntake ⌊365 * (t 0 - c.age 0) / c.dt⌋ i ∧
      ((∀ j, t j - c.age j = t 0 - c.age 0) →
        Child.Intake c t i = c.EIntake ⌊365 * (t i - c.age i) / c.dt⌋ i) := by
  have hbase : Child.Intake c t i = c.EIntake ⌊365 * (t 0 - c.age 0) / c.dt⌋ i := by
    unfold Child.Intake
    rw [hmode]
    norm_num
  refine ⟨hbase, fun hj => ?_⟩
  rw [hbase, show t i - c.age i = t 0 - c.age 0 from hj i]

/-- Witness for C2's amended theorem: the concrete cohort `childC2` is in
tabulated mode and the theorem applies to it. -/
theorem claim_C2_witness :
    childC2.generalized_logistic = false ∧
      Child.Intake childC2 tC2 0 =
        childC2.EIntake ⌊365 * (tC2 0 - childC2.age 0) / childC2.dt⌋ 0 :=
  ⟨rfl, (claim_C2_tabulated_row_from_individual_zero childC2 tC2 0 rfl).1⟩

/-- Counterexample to C2 as stated: with start ages `[0,0]`, times `[0,1]`
and `dt = 1`, the claim predicts that individual 1 reads row
`floor(365*(1-0)/1) = 365`, but `Intake` reads row
`floor(365*(0-0)/1) = 0` (individual 0's offset) for every column. -/
theorem claim_C2_counterexample :
    Child.Intake childC2 tC2 1 ≠
      childC2.EIntake ⌊365 * (tC2 1 - childC2.age 1) / childC2.dt⌋ 1 := by
  have hmode : childC2.generalized_logistic = false := rfl
  have hlhs : Child.Intake childC2 tC2 1 =
      childC2.EIntake ⌊365 * (tC2 0 - childC2.age 0) / childC2.dt⌋ 1 := by
    unfold Child.Intake
    rw [hmode]
    norm_num
  rw [hlhs]
  have h0 : tC2 0 - childC2.age 0 = 0 := by
    simp [tC2, childC2, Child.classic, Child.getParameters]
  have h1 : tC2 1 - childC2.age 1 = 1 := by
    simp [tC2, childC2, Child.classic, Child.getParameters]
  rw [h0, h1]
  have hdt : childC2.dt = 1 := rfl
  rw [hdt]
  have hE : ∀ r : ℤ, childC2.EIntake r 1 = (r : ℝ) := fun r => rfl
  rw [hE, hE]
  norm_num

/-- The cohort state `c` with its growth-impact coefficient set replaced and
every other member unchanged. -/
def withGrowthImpact (c : Child n) (a b d ta tb td tua tub tud : Vec n) :
    Child n :=
  { c with
    A1 := a
    B1 := b
    D1 := d
    tA1 := ta
    tB1 := tb
    tD1 := td
    tauA1 := tua
    tauB1 := tub
    tauD1 := tud }

/-- C3 (amended): `IntakeReference` is built from the energy-balance-impact
curve, the reference FFM/FM curves, `Delta`, the partition functions and
the growth-dynamic curve; it does not read the growth-impact coefficient
set `A1..tauD1`, so it is invariant under any change of those members. -/
theorem claim_C3_intake_reference_components (c : Child n) (t : Vec n) :
    (∀ i, Child.IntakeReference c t i =
        Child.EB_impact c t i + c.K i +
          (22.4 + Child.Delta c t i) * Child.FFMReference c t i +
          (4.5 + Child.Delta c t i) * Child.FMReference c t i +
          230 / Child.cRhoFFM (Child.FFMReference c t) i *
            (Child.cP c (Child.FFMReference c t) (Child.FMReference c t) i *
              Child.EB_impact c t i + Child.Growth_dynamic c t i) +
          180 / c.rhoFM *
            ((1 - Child.cP c (Child.FFMReference c t) (Child.FMReference c t) i) *
              Child.EB_impact c t i - Child.Growth_dynamic c t i)) ∧
      ∀ A1' B1' D1' tA1' tB1' tD1' tauA1' tauB1' tauD1' : Vec n,
        Child.IntakeReference
          (withGrowthImpact c A1' B1' D1' tA1' tB1' tD1' tauA1' tauB1' tauD1') t =
          Child.IntakeReference c t := by
  constructor
  · intro i
    norm_num [Child.IntakeReference]
  · intro A1' B1' D1' tA1' tB1' tD1' tauA1' tauB1' tauD1'
    rfl

/-- The cohort `childW` with the growth-impact amplitude `A1` shifted by 1
and every other member identical. -/
def childC3 : Child 0 := { childW with A1 := fun i => childW.A1 i + 1 }

/-- Counterexample to C3 as stated: the two cohort states `childC3` and
`childW` differ only in the growth-impact coefficient set — their
growth-impact curves differ at age 10 — yet `IntakeReference` is
identical on them, so `IntakeReference` is not a function of the
growth-impact curve. -/
theorem claim_C3_counterexample :
    Child.Growth_impact childC3 (fun _ => 10) 0 ≠
        Child.Growth_impact childW (fun _ => 10) 0 ∧
      Child.IntakeReference childC3 (fun _ => 10) =
        Child.IntakeReference childW (fun _ => 10) := by
  constructor
  · intro hEq
    have hdiff : Child.Growth_impact childC3 (fun _ => 10) 0 -
        Child.Growth_impact childW (fun _ => 10) 0 =
        Real.exp (-(10 - childW.tA1 0) / childW.tauA1 0) := by
      simp only [Child.Growth_impact, Child.general_ode, childC3]
      ring
    have hpos := Real.exp_pos (-(10 - childW.tA1 0) / childW.tauA1 0)
    rw [hEq] at hdiff
    linarith
  · rfl

/-- The fat-free-mass reference lookup for `t < 18` as the spec states it:
rows `jmin = max(floor t, 2) - 2` and `jmax = min(jmin + 1, 16)`, weight
`t - floor t`. -/
def refLookupSpecFFM (c : Child n) (t : Vec n) (i : Fin (n + 1)) : ℝ :=
  c.ffm_ref (max ⌊t i⌋ 2 - 2).toNat i +
    (t i - (⌊t i⌋ : ℝ)) *
      (c.ffm_ref (min (max ⌊t i⌋ 2 - 2 + 1) 16).toNat i -
        c.ffm_ref (max ⌊t i⌋ 2 - 2).toNat i)

/-- The fat-mass reference lookup for `t < 18` as the spec states it. -/
def refLookupSpecFM (c : Child n) (t : Vec n) (i : Fin (n + 1)) : ℝ :=
  c.fm_ref (max ⌊t i⌋ 2 - 2).toNat i +
    (t i - (⌊t i⌋ : ℝ)) *
      (c.fm_ref (min (max ⌊t i⌋ 2 - 2 + 1) 16).toNat i -
        c.fm_ref (max ⌊t i⌋ 2 - 2).toNat i)

/-- For ages below 18 the source's clamp `min(jmin+1, 17)` never binds, so
it coincides with the spec's `min(jmin+1, 16)`. -/
theorem jmax_clamp_agrees {x : ℝ} (hx : x < 18) :
    min (max ⌊x⌋ 2 - 2 + 1) 17 = min (max ⌊x⌋ 2 - 2 + 1) 16 := by
  have hfl : ⌊x⌋ < 18 := Int.floor_lt.mpr (by exact_mod_cast hx)
  omega

/-- C4: for every age below 18, both reference lookups return the linear
interpolation between rows `jmin = max(floor t, 2) - 2` and
`jmax = min(jmin + 1, 16)` with weight `t - floor t` (ages below 2 reuse
the age-2/age-3 interpolation through the clamp), and for every age at or
above 18 they return the age-18 row, index 16. -/
theorem claim_C4_reference_lookup (c : Child n) (t : Vec n) (i : Fin (n + 1)) :
    (t i < 18 →
      Child.FFMReference c t i = refLookupSpecFFM c t i ∧
        Child.FMReference c t i = refLookupSpecFM c t i) ∧
      (18 ≤ t i →
        Child.FFMReference c t i = c.ffm_ref 16 i ∧
          Child.FMReference c t i = c.fm_ref 16 i) := by
  constructor
  · intro hlt
    have hnot : ¬ (18.0 ≤ t i) := by norm_num; linarith
    constructor
    · unfold Child.FFMReference refLookupSpecFFM
      rw [if_neg hnot, jmax_clamp_agrees hlt]
    · unfold Child.FMReference refLookupSpecFM
      rw [if_neg hnot, jmax_clamp_agrees hlt]
  · intro hge
    have hyes : (18.0 : ℝ) ≤ t i := by norm_num; linarith
    constructor
    · unfold Child.FFMReference
      rw [if_pos hyes]
    · unfold Child.FMReference
      rw [if_pos hyes]

/-- Witness for C4 at the ages 5/2 (interpolating branch) and 20 (clamped
branch) on the concrete cohort `childW`. -/
theorem claim_C4_witness :
    ((5:ℝ)/2 < 18 ∧
      Child.FFMReference childW (fun _ => 5/2) 0 =
        refLookupSpecFFM childW (fun _ => 5/2) 0) ∧
      ((18:ℝ) ≤ 20 ∧
        Child.FMReference childW (fun _ => 20) 0 = childW.fm_ref 16 0) :=
  ⟨⟨by norm_num,
      ((claim_C4_reference_lookup childW (fun _ => 5/2) 0).1 (by norm_num)).1⟩,
    ⟨by norm_num,
      ((claim_C4_reference_lookup childW (fun _ => 20) 0).2 (by norm_num)).2⟩⟩

/-- One classical RK4 step exactly as §4.7 of the spec writes it: stage
masses offset by `dt/2` times (respectively `dt` times) the previous
stage's derivative, stage ages offset by `dt/730` and `dt/365`, and the
update `state + dt/6 * (k1 + 2*k2 + 2*k3 + k4)`. -/
def rk4StepSpec (c : Child n) (t ffm fm : Vec n) : Vec n × Vec n :=
  let k1 := c.dMass t ffm fm
  let k2 := c.dMass (fun i => t i + c.dt / 730)
    (fun i => ffm i + c.dt / 2 * k1.1 i) (fun i => fm i + c.dt / 2 * k1.2 i)
  let k3 := c.dMass (fun i => t i + c.dt / 730)
    (fun i => ffm i + c.dt / 2 * k2.1 i) (fun i => fm i + c.dt / 2 * k2.2 i)
  let k4 := c.dMass (fun i => t i + c.dt / 365)
    (fun i => ffm i + c.dt * k3.1 i) (fun i => fm i + c.dt * k3.2 i)
  (fun i => ffm i + c.dt / 6 * (k1.1 i + 2 * k2.1 i + 2 * k3.1 i + k4.1 i),
   fun i => fm i + c.dt / 6 * (k1.2 i + 2 * k2.2 i + 2 * k3.2 i + k4.2 i))

/-- C1 (supporting theorem for the code bug): at unit step size `dt = 1`
the loop body of `Child::rk4` coincides with the classical RK4 recurrence
of the spec.  For `dt ≠ 1` they differ: the source offsets the stage
masses by `0.5*k` and `k` where the recurrence (and the source's own
comment, which says `dt` was factored out of the Wikipedia stages)
requires `dt/2*k` and `dt*k`. -/
theorem claim_C1_unit_step_is_classical_rk4 (c : Child n) (t ffm fm : Vec n)
    (hdt : c.dt = 1) :
    Child.rk4Step c t ffm fm = rk4StepSpec c t ffm fm := by
  simp only [Child.rk4Step, rk4StepSpec, hdt]
  norm_num
  constructor <;> (funext i; ring)

/-- Witness for C1's supporting theorem: `childW` has `dt = 1` and its step
coincides with the classical recurrence. -/
theorem claim_C1_witness :
    childW.dt = 1 ∧
      Child.rk4Step childW childW.age childW.FFM childW.FM =
        rk4StepSpec childW childW.age childW.FFM childW.FM :=
  ⟨rfl, claim_C1_unit_step_is_classical_rk4 childW _ _ _ rfl⟩

/-- The cohort used to refute the non-negativity invariant: one male,
age 12.5 years, normal BMI category, fat-free mass 40 kg, fat mass 0 kg
(non-negative initial masses), tabulated intake identically zero, `dt = 1`,
mean reference tables. -/
def childC8 : Child 0 :=
  Child.classic (fun _ => 12.5) (fun _ => 0) (fun _ => 2) (fun _ => 40)
    (fun _ => 0) (fun _ _ => 0) 1 true 0

theorem c8_age : childC8.age 0 = 12.5 := rfl

theorem c8_FFM0 : childC8.FFM 0 = 40 := rfl

theorem c8_FM0 : childC8.FM 0 = 0 := rfl

theorem c8_dt : childC8.dt = 1 := rfl

theorem c8_rhoFM : childC8.rhoFM = 9400 := by
  norm_num [childC8, Child.classic, Child.getParameters]

theorem c8_K : childC8.K 0 = 800 := by
  norm_num [childC8, Child.classic, Child.getParameters]

theorem c8_deltamin : childC8.deltamin = 10 := by
  norm_num [childC8, Child.classic, Child.getParameters]

theorem c8_deltamax : childC8.deltamax 0 = 19 := by
  norm_num [childC8, Child.classic, Child.getParameters]

theorem c8_P : childC8.P = 12 := by
  norm_num [childC8, Child.classic, Child.getParameters]

theorem c8_h : childC8.h = 10 := by
  norm_num [childC8, Child.classic, Child.getParameters]

theorem c8_A : childC8.A 0 = 3.2 := by
  norm_num [childC8, Child.classic, Child.getParameters]

theorem c8_B : childC8.B 0 = 9.6 := by
  norm_num [childC8, Child.classic, Child.getParameters]

theorem c8_D : childC8.D 0 = 10.1 := by
  norm_num [childC8, Child.classic, Child.getParameters]

theorem c8_tA : childC8.tA 0 = 4.7 := by
  norm_num [childC8, Child.classic, Child.getParameters]

theorem c8_tB : childC8.tB 0 = 12.5 := by
  norm_num [childC8, Child.classic, Child.getParameters]

theorem c8_tD : childC8.tD 0 = 15 := by
  norm_num [childC8, Child.classic, Child.getParameters]

theorem c8_tauA : childC8.tauA 0 = 2.5 := by
  norm_num [childC8, Child.classic, Child.getParameters]

theorem c8_tauB : childC8.tauB 0 = 1 := by
  norm_num [childC8, Child.classic, Child.getParameters]

theorem c8_tauD : childC8.tauD 0 = 1.5 := by
  norm_num [childC8, Child.classic, Child.getParameters]

theorem c8_A_EB : childC8.A_EB 0 = 7.2 := by
  norm_num [childC8, Child.classic, Child.getParameters]

theorem c8_B_EB : childC8.B_EB 0 = 30 := by
  norm_num [childC8, Child.classic, Child.getParameters]

theorem c8_D_EB : childC8.D_EB 0 = 21 := by
  norm_num [childC8, Child.classic, Child.getParameters]

theorem c8_tA_EB : childC8.tA_EB 0 = 5.6 := by
  norm_num [childC8, Child.classic, Child.getParameters]

theorem c8_tB_EB : childC8.tB_EB 0 = 9.8 := by
  norm_num [childC8, Child.classic, Child.getParameters]

theorem c8_tD_EB : childC8.tD_EB 0 = 15 := by
  norm_num [childC8, Child.classic, Child.getParameters]

theorem c8_tauA_EB : childC8.tauA_EB 0 = 15 := by
  norm_num [childC8, Child.classic, Child.getParameters]

theorem c8_tauB_EB : childC8.tauB_EB 0 = 1.5 := by
  norm_num [childC8, Child.classic, Child.getParameters]

theorem c8_tauD_EB : childC8.tauD_EB 0 = 2 := by
  norm_num [childC8, Child.classic, Child.getParameters]

/-- In tabulated mode with a zero intake table, the intake of `childC8` is
zero at every time vector. -/
theorem c8_Intake (tv : Vec 0) : Child.Intake childC8 tv 0 = 0 := rfl

/-- On the stage-time interval of the refutation run, the growth-dynamic
term lies in `[9.59, 22.9]`: every exponential argument is non-positive
(so each term is at most its amplitude) and the `B`-Gaussian is centered at
`tB = 12.5`, so it stays within `exp(-0.5*0.01^2)` of its amplitude 9.6. -/
theorem c8_growth_bounds (tv : Vec 0) (h1 : 12.5 ≤ tv 0) (h2 : tv 0 ≤ 12.51) :
    9.59 ≤ Child.Growth_dynamic childC8 tv 0 ∧
      Child.Growth_dynamic childC8 tv 0 ≤ 22.9 := by
  unfold Child.Growth_dynamic Child.general_ode
  rw [c8_A, c8_B, c8_D, c8_tA, c8_tB, c8_tD, c8_tauA, c8_tauB, c8_tauD]
  have e1 : 0 < Real.exp (-(tv 0 - 4.7) / 2.5) := Real.exp_pos _
  have e3 : 0 < Real.exp (-0.5 * ((tv 0 - 15) / 1.5) ^ 2) := Real.exp_pos _
  have e2lb : 1 + -0.5 * ((tv 0 - 12.5) / 1) ^ 2 ≤
      Real.exp (-0.5 * ((tv 0 - 12.5) / 1) ^ 2) := by
    have := Real.add_one_le_exp (-0.5 * ((tv 0 - 12.5) / 1) ^ 2)
    linarith
  have hsq : ((tv 0 - 12.5) / 1) ^ 2 ≤ 0.0001 := by nlinarith
  have u1 : Real.exp (-(tv 0 - 4.7) / 2.5) ≤ 1 :=
    Real.exp_le_one_iff.mpr
      (div_nonpos_of_nonpos_of_nonneg (by linarith) (by norm_num))
  have u2 : Real.exp (-0.5 * ((tv 0 - 12.5) / 1) ^ 2) ≤ 1 :=
    Real.exp_le_one_iff.mpr (by nlinarith [sq_nonneg ((tv 0 - 12.5) / 1)])
  have u3 : Real.exp (-0.5 * ((tv 0 - 15) / 1.5) ^ 2) ≤ 1 :=
    Real.exp_le_one_iff.mpr (by nlinarith [sq_nonneg ((tv 0 - 15) / 1.5)])
  constructor
  · linarith
  · linarith

/-- On the stage-time interval, the energy-balance-impact term lies in
`[0, 58.2]`. -/
theorem c8_EB_bounds (tv : Vec 0) (h1 : 12.5 ≤ tv 0) (h2 : tv 0 ≤ 12.51) :
    0 ≤ Child.EB_impact childC8 tv 0 ∧ Child.EB_impact childC8 tv 0 ≤ 58.2 := by
  unfold Child.EB_impact Child.general_ode
  rw [c8_A_EB, c8_B_EB, c8_D_EB, c8_tA_EB, c8_tB_EB, c8_tD_EB,
    c8_tauA_EB, c8_tauB_EB, c8_tauD_EB]
  have e1 : 0 < Real.exp (-(tv 0 - 5.6) / 15) := Real.exp_pos _
  have e2 : 0 < Real.exp (-0.5 * ((tv 0 - 9.8) / 1.5) ^ 2) := Real.exp_pos _
  have e3 : 0 < Real.exp (-0.5 * ((tv 0 - 15) / 2) ^ 2) := Real.exp_pos _
  have u1 : Real.exp (-(tv 0 - 5.6) / 15) ≤ 1 :=
    Real.exp_le_one_iff.mpr (by linarith)
  have u2 : Real.exp (-0.5 * ((tv 0 - 9.8) / 1.5) ^ 2) ≤ 1 :=
    Real.exp_le_one_iff.mpr (by nlinarith [sq_nonneg ((tv 0 - 9.8) / 1.5)])
  have u3 : Real.exp (-0.5 * ((tv 0 - 15) / 2) ^ 2) ≤ 1 :=
    Real.exp_le_one_iff.mpr (by nlinarith [sq_nonneg ((tv 0 - 15) / 2)])
  constructor
  · linarith
  · linarith

/-- On the stage-time interval, the adaptive-thermogenesis term lies in
`[10, 19]`: the age power `(t/12)^10` is positive, so the logistic factor
lies in `(0, 1)`. -/
theorem c8_delta_bounds (tv : Vec 0) (h1 : 12.5 ≤ tv 0) (h2 : tv 0 ≤ 12.51) :
    10 ≤ Child.Delta childC8 tv 0 ∧ Child.Delta childC8 tv 0 ≤ 19 := by
  unfold Child.Delta
  rw [c8_deltamin, c8_deltamax, c8_P, c8_h]
  have hq : 0 < (tv 0 / 12) ^ (10 : ℝ) :=
    Real.rpow_pos_of_pos (by linarith) _
  have hfrac1 : 0 < 1.0 / (1.0 + (tv 0 / 12) ^ (10 : ℝ)) := by positivity
  have hfrac2 : 1.0 / (1.0 + (tv 0 / 12) ^ (10 : ℝ)) ≤ 1 := by
    rw [div_le_one (by linarith)]
    linarith
  constructor
  · nlinarith
  · nlinarith

theorem c8_ffm_ref_10 : childC8.ffm_ref 10 0 = 31.5163 := by
  norm_num [childC8, Child.classic, Child.getParameters, Child.ffm_ref,
    ffmRefMean, bl]

theorem c8_ffm_ref_11 : childC8.ffm_ref 11 0 = 36.3432 := by
  norm_num [childC8, Child.classic, Child.getParameters, Child.ffm_ref,
    ffmRefMean, bl]

theorem c8_fm_ref_10 : childC8.fm_ref 10 0 = 5.9324 := by
  norm_num [childC8, Child.classic, Child.getParameters, Child.fm_ref,
    fmRefMean, bl]

theorem c8_fm_ref_11 : childC8.fm_ref 11 0 = 7.0763 := by
  norm_num [childC8, Child.classic, Child.getParameters, Child.fm_ref,
    fmRefMean, bl]

theorem c8_floor (tv : Vec 0) (h1 : 12.5 ≤ tv 0) (h2 : tv 0 ≤ 12.51) :
    ⌊tv 0⌋ = 12 := by
  rw [Int.floor_eq_iff]
  refine ⟨by push_cast; linarith, by push_cast; linarith⟩

/-- On the stage-time interval the fat-free reference is the interpolation
between rows 10 (age 12) and 11 (age 13). -/
theorem c8_FFMref (tv : Vec 0) (h1 : 12.5 ≤ tv 0) (h2 : tv 0 ≤ 12.51) :
    Child.FFMReference childC8 tv 0 =
      31.5163 + (tv 0 - 12) * (36.3432 - 31.5163) := by
  unfold Child.FFMReference
  rw [if_neg (by norm_num; linarith), c8_floor tv h1 h2]
  norm_num
  rw [show ((10:ℤ).toNat) = 10 from rfl, show ((11:ℤ).toNat) = 11 from rfl,
    c8_ffm_ref_10, c8_ffm_ref_11]
  norm_num

/-- On the stage-time interval the fat reference is the interpolation
between rows 10 (age 12) and 11 (age 13). -/
theorem c8_FMref (tv : Vec 0) (h1 : 12.5 ≤ tv 0) (h2 : tv 0 ≤ 12.51) :
    Child.FMReference childC8 tv 0 =
      5.9324 + (tv 0 - 12) * (7.0763 - 5.9324) := by
  unfold Child.FMReference
  rw [if_neg (by norm_num; linarith), c8_floor tv h1 h2]
  norm_num
  rw [show ((10:ℤ).toNat) = 10 from rfl, show ((11:ℤ).toNat) = 11 from rfl,
    c8_fm_ref_10, c8_fm_ref_11]
  norm_num

theorem c8_FFMref_bounds (tv : Vec 0) (h1 : 12.5 ≤ tv 0) (h2 : tv 0 ≤ 12.51) :
    33.9 ≤ Child.FFMReference childC8 tv 0 ∧
      Child.FFMReference childC8 tv 0 ≤ 34 := by
  rw [c8_FFMref tv h1 h2]
  constructor <;> nlinarith

theorem c8_FMref_bounds (tv : Vec 0) (h1 : 12.5 ≤ tv 0) (h2 : tv 0 ≤ 12.51) :
    6.5 ≤ Child.FMReference childC8 tv 0 ∧
      Child.FMReference childC8 tv 0 ≤ 6.52 := by
  rw [c8_FMref tv h1 h2]
  constructor <;> nlinarith

set_option maxHeartbeats 1600000 in
/-- With fat-free mass in `[38, 40]` and a slightly negative fat mass in
`[-0.003, 0]`, the partition fraction of `childC8` lies in `[1, 1.003]`
(it exceeds 1 because the denominator `C + FM` is below `C`). -/
theorem c8_p_bounds (Fv Mv : Vec 0) (hf1 : 38 ≤ Fv 0) (hf2 : Fv 0 ≤ 40)
    (hm1 : -0.003 ≤ Mv 0) (hm2 : Mv 0 ≤ 0) :
    1 ≤ Child.cP childC8 Fv Mv 0 ∧ Child.cP childC8 Fv Mv 0 ≤ 1.003 := by
  unfold Child.cP Child.cRhoFFM
  rw [c8_rhoFM]
  have hC1 : 1.106 ≤ 10.4 * (4.3 * Fv 0 + 837.0) / 9400 := by linarith
  have hC2 : 10.4 * (4.3 * Fv 0 + 837.0) / 9400 ≤ 1.117 := by linarith
  have hden : 1.103 ≤ 10.4 * (4.3 * Fv 0 + 837.0) / 9400 + Mv 0 := by linarith
  constructor
  · rw [le_div_iff (by linarith)]
    linarith
  · rw [div_le_iff (by linarith)]
    nlinarith

set_option maxHeartbeats 1600000 in
/-- On the stage-time interval the reference intake of `childC8` lies in
`[1900, 2450]` kcal. -/
theorem c8_Iref_bounds (tv : Vec 0) (h1 : 12.5 ≤ tv 0) (h2 : tv 0 ≤ 12.51) :
    1900 ≤ Child.IntakeReference childC8 tv 0 ∧
      Child.IntakeReference childC8 tv 0 ≤ 2450 := by
  have hEB := c8_EB_bounds tv h1 h2
  have hdel := c8_delta_bounds tv h1 h2
  have hg := c8_growth_bounds tv h1 h2
  have hFr := c8_FFMref_bounds tv h1 h2
  have hMr := c8_FMref_bounds tv h1 h2
  have hp := cP_mem_Ioo childC8 (Child.FFMReference childC8 tv)
    (Child.FMReference childC8 tv) 0 c8_rhoFM (by linarith [hFr.1])
    (by linarith [hMr.1])
  unfold Child.IntakeReference
  simp only [Child.cRhoFFM]
  rw [c8_K, c8_rhoFM]
  set EB := Child.EB_impact childC8 tv 0 with hEBdef
  set del := Child.Delta childC8 tv 0 with hdeldef
  set g := Child.Growth_dynamic childC8 tv 0 with hgdef
  set Fr := Child.FFMReference childC8 tv 0 with hFrdef
  set Mr := Child.FMReference childC8 tv 0 with hMrdef
  set p := Child.cP childC8 (Child.FFMReference childC8 tv)
    (Child.FMReference childC8 tv) 0 with hpdef
  have hr1 : (982:ℝ) ≤ 4.3 * Fr + 837.0 := by linarith [hFr.1]
  have hr2 : 4.3 * Fr + 837.0 ≤ 984 := by linarith [hFr.2]
  have hq1 : (0.2337:ℝ) ≤ 230.0 / (4.3 * Fr + 837.0) := by
    rw [le_div_iff (by linarith)]
    linarith
  have hq2 : 230.0 / (4.3 * Fr + 837.0) ≤ 0.23422 := by
    rw [div_le_iff (by linarith)]
    linarith
  have hpEB1 : 0 ≤ p * EB := mul_nonneg (by linarith [hp.1]) hEB.1
  have hpEB2 : p * EB ≤ 58.2 := by nlinarith [hp.2, hEB.1, hEB.2, hp.1]
  have h1pEB1 : 0 ≤ (1 - p) * EB := mul_nonneg (by linarith [hp.2]) hEB.1
  have h1pEB2 : (1 - p) * EB ≤ 58.2 := by nlinarith [hp.1, hEB.1, hEB.2]
  have hterm1lb : 0.2337 * 9.59 ≤
      230.0 / (4.3 * Fr + 837.0) * (p * EB + g) :=
    mul_le_mul hq1 (by linarith [hg.1]) (by norm_num) (by linarith)
  have hterm1ub : 230.0 / (4.3 * Fr + 837.0) * (p * EB + g) ≤
      0.23422 * 81.1 :=
    mul_le_mul hq2 (by linarith [hg.2]) (by linarith [hg.1]) (by norm_num)
  have hterm2lb : (180.0:ℝ) / 9400 * (-22.9) ≤
      180.0 / 9400 * ((1 - p) * EB - g) := by
    apply mul_le_mul_of_nonneg_left _ (by norm_num)
    linarith [hg.2]
  have hterm2ub : 180.0 / 9400 * ((1 - p) * EB - g) ≤
      (180.0:ℝ) / 9400 * 48.61 := by
    apply mul_le_mul_of_nonneg_left _ (by norm_num)
    linarith [hg.1]
  have hP1lb : 32.4 * 33.9 ≤ (22.4 + del) * Fr :=
    mul_le_mul (by linarith [hdel.1]) hFr.1 (by norm_num) (by linarith [hdel.1])
  have hP1ub : (22.4 + del) * Fr ≤ 41.4 * 34 :=
    mul_le_mul (by linarith [hdel.2]) hFr.2 (by linarith [hFr.1])
      (by norm_num)
  have hP2lb : 14.5 * 6.5 ≤ (4.5 + del) * Mr :=
    mul_le_mul (by linarith [hdel.1]) hMr.1 (by norm_num) (by linarith [hdel.1])
  have hP2ub : (4.5 + del) * Mr ≤ 23.5 * 6.52 :=
    mul_le_mul (by linarith [hdel.2]) hMr.2 (by linarith [hMr.1]) (by norm_num)
  constructor
  · linarith [hEB.1]
  · linarith [hEB.2]

set_option maxHeartbeats 1600000 in
/-- On the stage-time interval with fat-free mass in `[38, 40]`, fat mass in
`[-0.003, 0]` and zero intake, the expenditure of `childC8` lies in
`[1174, 1634]` kcal. -/
theorem c8_E_bounds (tv Fv Mv : Vec 0) (ht1 : 12.5 ≤ tv 0)
    (ht2 : tv 0 ≤ 12.51) (hf1 : 38 ≤ Fv 0) (hf2 : Fv 0 ≤ 40)
    (hm1 : -0.003 ≤ Mv 0) (hm2 : Mv 0 ≤ 0) :
    1174 ≤ Child.Expenditure childC8 tv Fv Mv 0 ∧
      Child.Expenditure childC8 tv Fv Mv 0 ≤ 1634 := by
  have hdel := c8_delta_bounds tv ht1 ht2
  have hg := c8_growth_bounds tv ht1 ht2
  have hIr := c8_Iref_bounds tv ht1 ht2
  have hp := c8_p_bounds Fv Mv hf1 hf2 hm1 hm2
  unfold Child.Expenditure
  simp only [Child.cRhoFFM]
  rw [c8_Intake tv, c8_K, c8_rhoFM, mul_zero]
  set del := Child.Delta childC8 tv 0 with hdeldef
  set g := Child.Growth_dynamic childC8 tv 0 with hgdef
  set Ir := Child.IntakeReference childC8 tv 0 with hIrdef
  set p := Child.cP childC8 Fv Mv 0 with hpdef
  set q := 230.0 / (4.3 * Fv 0 + 837.0) with hqdef
  have hrv1 : (1000.4:ℝ) ≤ 4.3 * Fv 0 + 837.0 := by linarith
  have hrv2 : 4.3 * Fv 0 + 837.0 ≤ 1009 := by linarith
  have hq1 : (0.2279:ℝ) ≤ q := by
    rw [hqdef, le_div_iff (by linarith)]
    linarith
  have hq2 : q ≤ 0.22991 := by
    rw [hqdef, div_le_iff (by linarith)]
    linarith
  have hqp1 : (0.2279:ℝ) * 1 ≤ q * p :=
    mul_le_mul hq1 hp.1 (by norm_num) (by linarith)
  have hqp2 : q * p ≤ 0.22991 * 1.003 :=
    mul_le_mul hq2 hp.2 (by linarith [hp.1]) (by norm_num)
  have h1p1 : (180.0:ℝ) / 9400 * (-0.003) ≤ 180.0 / 9400 * (1.0 - p) := by
    apply mul_le_mul_of_nonneg_left _ (by norm_num)
    linarith [hp.2]
  have h1p2 : 180.0 / 9400 * (1.0 - p) ≤ 0 := by
    apply mul_nonpos_iff.mpr
    left
    exact ⟨by norm_num, by linarith [hp.1]⟩
  have hA1lb : 32.4 * 38 ≤ (22.4 + del) * Fv 0 :=
    mul_le_mul (by linarith [hdel.1]) hf1 (by norm_num) (by linarith [hdel.1])
  have hA1ub : (22.4 + del) * Fv 0 ≤ 41.4 * 40 :=
    mul_le_mul (by linarith [hdel.2]) hf2 (by linarith) (by norm_num)
  have hA2lb : -0.0705 ≤ (4.5 + del) * Mv 0 := by
    nlinarith [mul_nonneg (show (0:ℝ) ≤ del + 4.5 by linarith [hdel.1])
      (show (0:ℝ) ≤ Mv 0 + 0.003 by linarith), hdel.2]
  have hA2ub : (4.5 + del) * Mv 0 ≤ 0 := by
    apply mul_nonpos_iff.mpr
    left
    exact ⟨by linarith [hdel.1], hm2⟩
  have hco1 : (0.2087:ℝ) ≤ q - 180.0 / 9400 := by
    rw [show (180.0:ℝ) / 9400 = 9 / 470 by norm_num]
    linarith
  have hco2 : q - 180.0 / 9400 ≤ 0.2108 := by
    rw [show (180.0:ℝ) / 9400 = 9 / 470 by norm_num]
    linarith
  have hA5lb : 9.59 * 0.2087 ≤ g * (q - 180.0 / 9400) :=
    mul_le_mul hg.1 hco1 (by norm_num) (by linarith [hg.1])
  have hA5ub : g * (q - 180.0 / 9400) ≤ 22.9 * 0.2108 :=
    mul_le_mul hg.2 hco2 (by linarith) (by norm_num)
  have hdenlb : (1.2277:ℝ) ≤ 1.0 + (q * p + 180.0 / 9400 * (1.0 - p)) := by
    linarith
  have hdenub : 1.0 + (q * p + 180.0 / 9400 * (1.0 - p)) ≤ 1.2307 := by
    linarith
  constructor
  · rw [le_div_iff (by linarith)]
    nlinarith [hIr.2]
  · rw [div_le_iff (by linarith)]
    nlinarith [hIr.1]

set_option maxHeartbeats 1600000 in
/-- The key stage estimate of the refutation run: at any stage time in
`[12.5, 12.51]` years, any fat-free mass in `[38, 40]` kg and any fat mass
in `[-0.003, 0]` kg, the fat-mass derivative of `childC8` lies in
`[-0.0026, -0.00049]` (strictly negative: the growth energy cost dominates)
and the fat-free-mass derivative lies in `[-1.7, -1.1]`. -/
theorem c8_dMass_bounds (tv Fv Mv : Vec 0) (ht1 : 12.5 ≤ tv 0)
    (ht2 : tv 0 ≤ 12.51) (hf1 : 38 ≤ Fv 0) (hf2 : Fv 0 ≤ 40)
    (hm1 : -0.003 ≤ Mv 0) (hm2 : Mv 0 ≤ 0) :
    ((childC8.dMass tv Fv Mv).2 0 ≤ -0.00049 ∧
        -0.0026 ≤ (childC8.dMass tv Fv Mv).2 0) ∧
      (-1.7 ≤ (childC8.dMass tv Fv Mv).1 0 ∧
        (childC8.dMass tv Fv Mv).1 0 ≤ -1.1) := by
  have hE := c8_E_bounds tv Fv Mv ht1 ht2 hf1 hf2 hm1 hm2
  have hp := c8_p_bounds Fv Mv hf1 hf2 hm1 hm2
  have hg := c8_growth_bounds tv ht1 ht2
  simp only [Child.dMass, Child.cRhoFFM]
  rw [c8_Intake tv, c8_rhoFM]
  set p := Child.cP childC8 Fv Mv 0 with hpdef
  set E := Child.Expenditure childC8 tv Fv Mv 0 with hEdef
  set g := Child.Growth_dynamic childC8 tv 0 with hgdef
  have hEpos : (0:ℝ) ≤ E := by linarith [hE.1]
  have hrv1 : (1000.4:ℝ) ≤ 4.3 * Fv 0 + 837.0 := by linarith
  have hrv2 : 4.3 * Fv 0 + 837.0 ≤ 1009 := by linarith
  have hprod_ub : (1.0 - p) * (0 - E) ≤ 4.902 := by
    nlinarith [mul_le_mul (show p - 1 ≤ 0.003 by linarith [hp.2]) hE.2
      hEpos (by norm_num : (0:ℝ) ≤ 0.003)]
  have hprod_lb : 0 ≤ (1.0 - p) * (0 - E) := by
    nlinarith [mul_nonneg (show (0:ℝ) ≤ p - 1 by linarith [hp.1]) hEpos]
  have hpE_ub : 1.0 * p * (0 - E) ≤ -1174 := by
    nlinarith [mul_nonneg (show (0:ℝ) ≤ p - 1 by linarith [hp.1]) hEpos,
      hE.1]
  have hpE_lb : -1638.91 ≤ 1.0 * p * (0 - E) := by
    nlinarith [mul_le_mul hp.2 hE.2 hEpos (by norm_num : (0:ℝ) ≤ 1.003)]
  refine ⟨⟨?_, ?_⟩, ?_, ?_⟩
  · rw [div_le_iff (by norm_num : (0:ℝ) < 9400)]
    nlinarith [hg.1]
  · rw [le_div_iff (by norm_num : (0:ℝ) < 9400)]
    nlinarith [hg.2]
  · rw [le_div_iff (by linarith)]
    nlinarith [hg.1]
  · rw [div_le_iff (by linarith)]
    nlinarith [hg.2]

/-- Stage time of stages 2 and 3 for the refutation run (one `rk4` loop
iteration of `childC8`). -/
def c8t2 : Vec 0 := fun i => childC8.age i + 0.5 * childC8.dt / 365.0

/-- Stage 1 derivative of the refutation run. -/
def c8k1 : Vec 0 × Vec 0 := childC8.dMass childC8.age childC8.FFM childC8.FM

/-- Stage 2 fat-free mass of the refutation run. -/
def c8F2 : Vec 0 := fun i => childC8.FFM i + 0.5 * c8k1.1 i

/-- Stage 2 fat mass of the refutation run. -/
def c8M2 : Vec 0 := fun i => childC8.FM i + 0.5 * c8k1.2 i

/-- Stage 2 derivative of the refutation run. -/
def c8k2 : Vec 0 × Vec 0 := childC8.dMass c8t2 c8F2 c8M2

/-- Stage 3 fat-free mass of the refutation run. -/
def c8F3 : Vec 0 := fun i => childC8.FFM i + 0.5 * c8k2.1 i

/-- Stage 3 fat mass of the refutation run. -/
def c8M3 : Vec 0 := fun i => childC8.FM i + 0.5 * c8k2.2 i

/-- Stage 3 derivative of the refutation run. -/
def c8k3 : Vec 0 × Vec 0 := childC8.dMass c8t2 c8F3 c8M3

/-- Stage time of stage 4 for the refutation run. -/
def c8t4 : Vec 0 := fun i => childC8.age i + childC8.dt / 365.0

/-- Stage 4 fat-free mass of the refutation run. -/
def c8F4 : Vec 0 := fun i => childC8.FFM i + c8k3.1 i

/-- Stage 4 fat mass of the refutation run. -/
def c8M4 : Vec 0 := fun i => childC8.FM i + c8k3.2 i

/-- Stage 4 derivative of the refutation run. -/
def c8k4 : Vec 0 × Vec 0 := childC8.dMass c8t4 c8F4 c8M4

theorem c8_hk1 :
    (c8k1.2 0 ≤ -0.00049 ∧ -0.0026 ≤ c8k1.2 0) ∧
      (-1.7 ≤ c8k1.1 0 ∧ c8k1.1 0 ≤ -1.1) :=
  c8_dMass_bounds childC8.age childC8.FFM childC8.FM
    (by norm_num [c8_age]) (by norm_num [c8_age])
    (by norm_num [c8_FFM0]) (by norm_num [c8_FFM0])
    (by norm_num [c8_FM0]) (by norm_num [c8_FM0])

theorem c8_t2_val : c8t2 0 = 12.5 + 0.5 * 1 / 365.0 := by
  simp only [c8t2]
  rw [c8_age, c8_dt]

theorem c8_hk2 :
    (c8k2.2 0 ≤ -0.00049 ∧ -0.0026 ≤ c8k2.2 0) ∧
      (-1.7 ≤ c8k2.1 0 ∧ c8k2.1 0 ≤ -1.1) :=
  c8_dMass_bounds c8t2 c8F2 c8M2
    (by rw [c8_t2_val]; norm_num) (by rw [c8_t2_val]; norm_num)
    (by simp only [c8F2]; rw [c8_FFM0]; linarith [c8_hk1.2.1])
    (by simp only [c8F2]; rw [c8_FFM0]; linarith [c8_hk1.2.2])
    (by simp only [c8M2]; rw [c8_FM0]; linarith [c8_hk1.1.2])
    (by simp only [c8M2]; rw [c8_FM0]; linarith [c8_hk1.1.1])

theorem c8_hk3 :
    (c8k3.2 0 ≤ -0.00049 ∧ -0.0026 ≤ c8k3.2 0) ∧
      (-1.7 ≤ c8k3.1 0 ∧ c8k3.1 0 ≤ -1.1) :=
  c8_dMass_bounds c8t2 c8F3 c8M3
    (by rw [c8_t2_val]; norm_num) (by rw [c8_t2_val]; norm_num)
    (by simp only [c8F3]; rw [c8_FFM0]; linarith [c8_hk2.2.1])
    (by simp only [c8F3]; rw [c8_FFM0]; linarith [c8_hk2.2.2])
    (by simp only [c8M3]; rw [c8_FM0]; linarith [c8_hk2.1.2])
    (by simp only [c8M3]; rw [c8_FM0]; linarith [c8_hk2.1.1])

theorem c8_t4_val : c8t4 0 = 12.5 + 1 / 365.0 := by
  simp only [c8t4]
  rw [c8_age, c8_dt]

theorem c8_hk4 :
    (c8k4.2 0 ≤ -0.00049 ∧ -0.0026 ≤ c8k4.2 0) ∧
      (-1.7 ≤ c8k4.1 0 ∧ c8k4.1 0 ≤ -1.1) :=
  c8_dMass_bounds c8t4 c8F4 c8M4
    (by rw [c8_t4_val]; norm_num) (by rw [c8_t4_val]; norm_num)
    (by simp only [c8F4]; rw [c8_FFM0]; linarith [c8_hk3.2.1])
    (by simp only [c8F4]; rw [c8_FFM0]; linarith [c8_hk3.2.2])
    (by simp only [c8M4]; rw [c8_FM0]; linarith [c8_hk3.1.2])
    (by simp only [c8M4]; rw [c8_FM0]; linarith [c8_hk3.1.1])

/-- C8 (amended): the initial recorded column of the trace preserves the
non-negativity of the input masses (it records them verbatim). -/
theorem claim_C8_initial_masses_nonneg (c : Child n) (days : ℝ)
    (i : Fin (n + 1)) (hffm : 0 ≤ c.FFM i) (hfm : 0 ≤ c.FM i) :
    0 ≤ ((c.rk4 days).Fat_Free_Mass.getD 0 fun _ => 0) i ∧
      0 ≤ ((c.rk4 days).Fat_Mass.getD 0 fun _ => 0) i := by
  constructor
  · simp only [Child.rk4, getD_ofFn]
    rw [dif_pos (Nat.succ_pos _)]
    exact hffm
  · simp only [Child.rk4, getD_ofFn]
    rw [dif_pos (Nat.succ_pos _)]
    exact hfm

/-- Witness for C8's amended theorem on the concrete cohort `childW`
(initial masses 25 and 6). -/
theorem claim_C8_witness :
    0 ≤ ((childW.rk4 10).Fat_Free_Mass.getD 0 fun _ => 0) 0 ∧
      0 ≤ ((childW.rk4 10).Fat_Mass.getD 0 fun _ => 0) 0 :=
  claim_C8_initial_masses_nonneg childW 10 0
    (by rw [show childW.FFM 0 = 25 from rfl]; norm_num)
    (by rw [show childW.FM 0 = 6 from rfl]; norm_num)

/-- Counterexample to C8 as stated: the run `childC8` starts from
non-negative masses (40 kg fat-free, 0 kg fat) with zero caloric intake,
yet after the very first recorded step its fat mass is negative — the
integrator enforces no non-negativity. -/
theorem claim_C8_counterexample :
    (0 ≤ childC8.FFM 0 ∧ 0 ≤ childC8.FM 0) ∧
      ((childC8.rk4 1).Fat_Mass.getD 1 fun _ => 0) 0 < 0 := by
  refine ⟨⟨by rw [c8_FFM0]; norm_num, by rw [c8_FM0]⟩, ?_⟩
  have hn : (⌊(1:ℝ) / childC8.dt⌋).toNat = 1 := by
    rw [c8_dt]
    norm_num
  have hgd : ((childC8.rk4 1).Fat_Mass.getD 1 fun _ => 0) 0 =
      (childC8.massState 1).2 0 := by
    simp only [Child.rk4, getD_ofFn]
    rw [dif_pos (show 1 < (⌊(1:ℝ) / childC8.dt⌋).toNat + 1 by
      rw [hn]; norm_num)]
  have hms : (childC8.massState 1).2 0 =
      childC8.FM 0 + childC8.dt *
        (c8k1.2 0 + 2.0 * c8k2.2 0 + 2.0 * c8k3.2 0 + c8k4.2 0) / 6.0 := rfl
  rw [hgd, hms, c8_FM0, c8_dt]
  linarith [c8_hk1.1.1, c8_hk2.1.1, c8_hk3.1.1, c8_hk4.1.1]
